import Mathlib

/-!
Verification development for the ERPlora messaging module.

The Python sources (src/models.py, src/views.py) are shallowly embedded:
Django model rows become Lean structures, the database becomes an explicit
`List` of rows, wall-clock time is an explicit `now : Nat` parameter, and
each view/handler becomes a pure function from the request data and the
store to a response value and the updated store.  Django's
`QuerySet.get` semantics (zero matches raise `DoesNotExist`, two or more
raise `MultipleObjectsReturned`) are embedded by `ormGet`; an uncaught
exception in a view surfaces as a server error.  Python strings are Lean
`String`s except in template rendering, where they are `List Char` so that
`str.replace` can be reasoned about by structural recursion.
-/

namespace Messaging

/-- A row of `messaging_message` (src/models.py, class Message).  Foreign
keys are plain optional ids, datetimes are `Option Nat` instants, and the
`updated_at` audit column is stamped on every save. -/
structure Message where
  id : Nat
  hubId : Nat
  channel : String
  recipient_name : String
  recipient_contact : String
  subject : String
  body : String
  status : String
  template_id : Option Nat
  customer_id : Option Nat
  sent_at : Option Nat
  delivered_at : Option Nat
  read_at : Option Nat
  error_message : String
  external_id : String
  metadata : String
  is_deleted : Bool
  updated_at : Nat
  deriving DecidableEq, Repr

/-- Embedding of `Message.mark_sent` (src/models.py lines 335-340): set
status to `sent`, stamp `sent_at`, and save (which stamps `updated_at`). -/
def Message.mark_sent (m : Message) (now : Nat) : Message :=
  { m with status := "sent", sent_at := some now, updated_at := now }

/-- Embedding of `Message.mark_delivered` (src/models.py lines 342-347). -/
def Message.mark_delivered (m : Message) (now : Nat) : Message :=
  { m with status := "delivered", delivered_at := some now, updated_at := now }

/-- Embedding of `Message.mark_read` (src/models.py lines 349-354). -/
def Message.mark_read (m : Message) (now : Nat) : Message :=
  { m with status := "read", read_at := some now, updated_at := now }

/-- Embedding of `Message.mark_failed` (src/models.py lines 356-360): set
status to `failed` and store the error text; the save stamps `updated_at`. -/
def Message.mark_failed (m : Message) (error : String) (now : Nat) : Message :=
  { m with status := "failed", error_message := error, updated_at := now }

/-- The two failure modes of Django's `QuerySet.get`. -/
inductive OrmError where
  | doesNotExist
  | multipleObjectsReturned
  deriving DecidableEq, Repr

/-- Embedding of Django's `QuerySet.get(...)`: zero rows matching the
predicate raise `DoesNotExist`, two or more raise
`MultipleObjectsReturned`, a unique match is returned. -/
def ormGet {α : Type} (db : List α) (p : α → Bool) : Except OrmError α :=
  match db.filter p with
  | [] => Except.error OrmError.doesNotExist
  | [x] => Except.ok x
  | _ => Except.error OrmError.multipleObjectsReturned

/-- Persisting a saved row: every stored row with the same primary key is
replaced by the saved instance. -/
def updateById {α : Type} (getId : α → Nat) (db : List α) (m : α) : List α :=
  db.map (fun x => if getId x = getId m then m else x)

/-- The JSON body accepted by the webhook endpoint; `none` models an
absent key (the code reads each with `data.get(key, '')`). -/
structure WebhookBody where
  external_id : Option String
  status : Option String
  error : Option String
  deriving DecidableEq, Repr

/-- Responses the webhook endpoint can produce.  `serverError` is an
uncaught exception escaping the view (Django turns it into a 500). -/
inductive WebhookResult where
  | badRequest (err : String)
  | notFound (err : String)
  | ok (message_id : Nat)
  | serverError
  deriving DecidableEq, Repr

/-- Embedding of `api_webhook` (src/views.py lines 481-516).  The endpoint
is unauthenticated, so it has no hub in scope; its `Message.objects.get`
lookup filters on `external_id` alone.  (The base manager lives outside
this repository; whether it hides soft-deleted rows is immaterial to the
claims settled here, and the store is taken as the rows the manager
exposes.) -/
def api_webhook (now : Nat) (db : List Message) (data : WebhookBody) :
    WebhookResult × List Message :=
  if data.external_id.getD "" = "" ∨ data.status.getD "" = "" then
    (WebhookResult.badRequest "external_id and status required", db)
  else
    match ormGet db (fun m => m.external_id == data.external_id.getD "") with
    | Except.error OrmError.doesNotExist =>
        (WebhookResult.notFound "Message not found", db)
    | Except.error OrmError.multipleObjectsReturned =>
        (WebhookResult.serverError, db)
    | Except.ok msg =>
        if data.status.getD "" = "delivered" then
          (WebhookResult.ok (msg.mark_delivered now).id,
            updateById Message.id db (msg.mark_delivered now))
        else if data.status.getD "" = "read" then
          (WebhookResult.ok (msg.mark_read now).id,
            updateById Message.id db (msg.mark_read now))
        else if data.status.getD "" = "failed" then
          (WebhookResult.ok (msg.mark_failed (data.error.getD "") now).id,
            updateById Message.id db (msg.mark_failed (data.error.getD "") now))
        else if data.status.getD "" = "sent" then
          (WebhookResult.ok (msg.mark_sent now).id,
            updateById Message.id db (msg.mark_sent now))
        else
          (WebhookResult.ok msg.id, db)

/-- A concrete message row used by closed witnesses and counterexamples. -/
def baseMsg : Message :=
  { id := 1, hubId := 1, channel := "whatsapp", recipient_name := "",
    recipient_contact := "c", subject := "", body := "b", status := "sent",
    template_id := none, customer_id := none, sent_at := none,
    delivered_at := none, read_at := none, error_message := "",
    external_id := "X", metadata := "", is_deleted := false,
    updated_at := 0 }

/-- The JSON body accepted by the send endpoint; `none` models an absent
key.  The code reads `channel` with `data.get('channel')` and the others
with a `''` default; `if not value` treats `None` and `''` alike. -/
structure SendBody where
  channel : Option String
  recipient_contact : Option String
  subject : Option String
  body : Option String
  recipient_name : Option String
  template_id : Option Nat
  customer_id : Option Nat
  metadata : Option String
  deriving DecidableEq, Repr

/-- Responses of the send endpoint. -/
inductive SendResult where
  | badRequest (err : String)
  | ok (message_id : Nat) (status : String)
  deriving DecidableEq, Repr

/-- The row built by `Message.objects.create(...)` in `api_send`
(src/views.py lines 458-469): status `queued`, no delivery timestamps,
`nextId` the fresh primary key. -/
def newMessage (now hub nextId : Nat) (data : SendBody) : Message :=
  { id := nextId, hubId := hub, channel := data.channel.getD "",
    recipient_name := data.recipient_name.getD "",
    recipient_contact := data.recipient_contact.getD "",
    subject := data.subject.getD "", body := data.body.getD "",
    status := "queued", template_id := data.template_id,
    customer_id := data.customer_id, sent_at := none, delivered_at := none,
    read_at := none, error_message := "", external_id := "",
    metadata := data.metadata.getD "", is_deleted := false,
    updated_at := now }

/-- Embedding of `api_send` (src/views.py lines 426-478): validate
presence of channel, recipient_contact and body, validate the channel
value, create a `queued` Message, immediately `mark_sent` it (a second
save), and answer with the message id and its status. -/
def api_send (now hub nextId : Nat) (db : List Message) (data : SendBody) :
    SendResult × List Message :=
  if data.channel.getD "" = "" ∨ data.recipient_contact.getD "" = "" ∨
      data.body.getD "" = "" then
    (SendResult.badRequest "channel, recipient_contact, and body are required",
      db)
  else if ¬(data.channel.getD "" = "whatsapp" ∨ data.channel.getD "" = "sms" ∨
      data.channel.getD "" = "email") then
    (SendResult.badRequest "Invalid channel. Must be whatsapp, sms, or email",
      db)
  else
    (SendResult.ok ((newMessage now hub nextId data).mark_sent now).id
        ((newMessage now hub nextId data).mark_sent now).status,
      updateById Message.id (db ++ [newMessage now hub nextId data])
        ((newMessage now hub nextId data).mark_sent now))

/-- A row of `messaging_campaign` (src/models.py, class Campaign). -/
structure Campaign where
  id : Nat
  hubId : Nat
  name : String
  description : String
  channel : String
  template_id : Option Nat
  status : String
  scheduled_at : Option Nat
  started_at : Option Nat
  completed_at : Option Nat
  total_recipients : Nat
  sent_count : Nat
  delivered_count : Nat
  failed_count : Nat
  target_filter : String
  is_deleted : Bool
  updated_at : Nat
  deriving DecidableEq, Repr

/-- Embedding of `Campaign.start` (src/models.py lines 497-502): mutates
unconditionally — the guard lives in the handler. -/
def Campaign.start (c : Campaign) (now : Nat) : Campaign :=
  { c with status := "sending", started_at := some now, updated_at := now }

/-- Embedding of `Campaign.complete` (src/models.py lines 504-509). -/
def Campaign.complete (c : Campaign) (now : Nat) : Campaign :=
  { c with status := "completed", completed_at := some now, updated_at := now }

/-- Embedding of `Campaign.cancel` (src/models.py lines 511-514). -/
def Campaign.cancel (c : Campaign) (now : Nat) : Campaign :=
  { c with status := "cancelled", updated_at := now }

/-- Round `n / d` to the nearest integer, ties to even — the semantics of
Python's `round` on an exactly represented ratio (`d` must be positive;
floating-point representation error is abstracted away, the arithmetic
being modelled exactly). -/
def roundHalfEvenDiv (n d : Nat) : Nat :=
  if 2 * (n % d) < d then n / d
  else if d < 2 * (n % d) then n / d + 1
  else if (n / d) % 2 = 0 then n / d else n / d + 1

/-- Embedding of the `Campaign.delivery_rate` property (src/models.py
lines 471-476): `round((delivered_count / sent_count) * 100, 1)`, with 0
when `sent_count == 0`.  The percentage is represented in tenths (the
Python float `80.0` is the value `800` here). -/
def Campaign.delivery_rate_tenths (c : Campaign) : Nat :=
  if c.sent_count = 0 then 0
  else roundHalfEvenDiv (c.delivered_count * 1000) c.sent_count

/-- Embedding of the `Campaign.progress_percent` property (src/models.py
lines 478-483), in tenths of a percent. -/
def Campaign.progress_percent_tenths (c : Campaign) : Nat :=
  if c.total_recipients = 0 then 0
  else roundHalfEvenDiv (c.sent_count * 1000) c.total_recipients

/-- Result of an HTML-rendering handler: a 404 from
`get_object_or_404`, a server error from an escaping exception, or a
rendered 200 page whose flash notice is an error (`page true`) or a
success (`page false`). -/
inductive PageResult where
  | notFound
  | serverError
  | page (flashIsError : Bool)
  deriving DecidableEq, Repr

/-- Embedding of the `campaign_start` handler (src/views.py lines
386-401): look the campaign up by pk within the hub's non-deleted rows;
outside `draft`/`scheduled` flash an error and change nothing; otherwise
call `Campaign.start` and flash success.  Either way a 200 page renders. -/
def campaign_start (now hub pk : Nat) (db : List Campaign) :
    PageResult × List Campaign :=
  match ormGet db (fun c => c.id == pk && c.hubId == hub && !c.is_deleted) with
  | Except.error OrmError.doesNotExist => (PageResult.notFound, db)
  | Except.error OrmError.multipleObjectsReturned => (PageResult.serverError, db)
  | Except.ok campaign =>
      if ¬(campaign.status = "draft" ∨ campaign.status = "scheduled") then
        (PageResult.page true, db)
      else
        (PageResult.page false, updateById Campaign.id db (campaign.start now))

/-- Embedding of the `campaign_cancel` handler (src/views.py lines
404-419): from `completed`/`cancelled` flash an error and change
nothing; otherwise call `Campaign.cancel` and flash success. -/
def campaign_cancel (now hub pk : Nat) (db : List Campaign) :
    PageResult × List Campaign :=
  match ormGet db (fun c => c.id == pk && c.hubId == hub && !c.is_deleted) with
  | Except.error OrmError.doesNotExist => (PageResult.notFound, db)
  | Except.error OrmError.multipleObjectsReturned => (PageResult.serverError, db)
  | Except.ok campaign =>
      if campaign.status = "completed" ∨ campaign.status = "cancelled" then
        (PageResult.page true, db)
      else
        (PageResult.page false, updateById Campaign.id db (campaign.cancel now))

/-- A row of `messaging_template` (src/models.py, class MessageTemplate). -/
structure MessageTemplate where
  id : Nat
  hubId : Nat
  name : String
  channel : String
  category : String
  subject : String
  body : String
  is_active : Bool
  is_system : Bool
  is_deleted : Bool
  updated_at : Nat
  deriving DecidableEq, Repr

/-- Modelled from the spec: `HubBaseModel.delete` (the base model lives in
`apps.core`, outside this repository) performs a soft delete — the row is
"soft-deleted (logically removed, retained in storage) rather than
physically erased". -/
def MessageTemplate.delete (t : MessageTemplate) : MessageTemplate :=
  { t with is_deleted := true }

/-- The default non-deleted view the handlers render
(`MessageTemplate.objects.filter(hub_id=hub, is_deleted=False)`,
src/views.py line 309). -/
def templatesDefaultView (db : List MessageTemplate) (hub : Nat) :
    List MessageTemplate :=
  db.filter (fun t => t.hubId == hub && !t.is_deleted)

/-- Modelled from the spec: the privileged all-records view ("still
retrievable via the all-records view") — every one of the hub's rows,
soft-deleted included. -/
def templatesAllRecordsView (db : List MessageTemplate) (hub : Nat) :
    List MessageTemplate :=
  db.filter (fun t => t.hubId == hub)

/-- Embedding of the `template_delete` handler (src/views.py lines
296-313): look the template up within the hub's non-deleted rows; a
system template flashes an error and is not deleted; otherwise the row is
soft-deleted.  Either way a 200 page renders. -/
def template_delete (hub pk : Nat) (db : List MessageTemplate) :
    PageResult × List MessageTemplate :=
  match ormGet db (fun t => t.id == pk && t.hubId == hub && !t.is_deleted) with
  | Except.error OrmError.doesNotExist => (PageResult.notFound, db)
  | Except.error OrmError.multipleObjectsReturned => (PageResult.serverError, db)
  | Except.ok template =>
      if template.is_system then
        (PageResult.page true, db)
      else
        (PageResult.page false, updateById MessageTemplate.id db template.delete)

/-- Python's substring test (`pat in s`). -/
def containsSub : List Char → List Char → Bool
  | [], pat => pat.isEmpty
  | c :: rest, pat => pat.isPrefixOf (c :: rest) || containsSub rest pat

/-- Django's case-insensitive `icontains` lookup. -/
def icontains (field q : String) : Bool :=
  containsSub field.toLower.toList q.toLower.toList

/-- The base queryset of `messages_list` (src/views.py line 116):
`Message.objects.filter(hub_id=hub, is_deleted=False)`. -/
def messagesBaseFilter (db : List Message) (hub : Nat) : List Message :=
  db.filter (fun m => m.hubId == hub && !m.is_deleted)

/-- The optional refinements of `messages_list` (src/views.py lines
118-128): channel, status, and the 4-field substring search, each applied
only when the request parameter is non-empty. -/
def messages_list_filters (qs : List Message)
    (channel_filter status_filter search_query : String) : List Message :=
  let qs1 := if channel_filter ≠ ""
    then qs.filter (fun m => m.channel == channel_filter) else qs
  let qs2 := if status_filter ≠ ""
    then qs1.filter (fun m => m.status == status_filter) else qs1
  if search_query ≠ "" then
    qs2.filter (fun m =>
      icontains m.recipient_name search_query ||
      icontains m.recipient_contact search_query ||
      icontains m.subject search_query ||
      icontains m.body search_query)
  else qs2

/-- Embedding of the `messages_list` queryset (src/views.py lines
109-128), before pagination. -/
def messages_list_qs (db : List Message) (hub : Nat)
    (channel_filter status_filter search_query : String) : List Message :=
  messages_list_filters (messagesBaseFilter db hub)
    channel_filter status_filter search_query

/-- The opening-brace character of a placeholder. -/
def lb : Char := Char.ofNat 123

/-- The closing-brace character of a placeholder. -/
def rb : Char := Char.ofNat 125

/-- The literal placeholder a context key is substituted at:
two opening braces, the key, two closing braces. -/
def placeholder (key : List Char) : List Char :=
  lb :: lb :: (key ++ [rb, rb])

/-- Python `str.replace`, left to right, non-overlapping, the replacement
text not rescanned.  The first argument is fuel, one unit per consumed
character; `strReplace` passes the subject string itself, which always
suffices.  An empty pattern leaves the string unchanged (render never
builds one: every placeholder starts with two braces). -/
def strReplaceAux : List Char → List Char → List Char → List Char → List Char
  | _, [], _, _ => []
  | [], s, _, _ => s
  | _ :: fuel, c :: rest, pat, rep =>
    if !pat.isEmpty && pat.isPrefixOf (c :: rest) then
      rep ++ strReplaceAux fuel ((c :: rest).drop pat.length) pat rep
    else
      c :: strReplaceAux fuel rest pat rep

/-- `s.replace(pat, rep)` for the patterns used by rendering. -/
def strReplace (s pat rep : List Char) : List Char :=
  strReplaceAux s s pat rep

/-- Embedding of `MessageTemplate.render_body` (src/models.py lines
217-224): an empty (or absent) context returns the body unchanged;
otherwise each key in context order replaces every occurrence of its
placeholder in the running result with its value.  Strings are char
lists; context values are embedded after Python's `str()`. -/
def render_body (body : List Char)
    (context : List (List Char × List Char)) : List Char :=
  match context with
  | [] => body
  | _ :: _ =>
      context.foldl
        (fun result kv => strReplace result (placeholder kv.1) kv.2) body

/-- Embedding of `MessageTemplate.render_subject` (src/models.py lines
226-233): the identical loop over the subject. -/
def render_subject (subject : List Char)
    (context : List (List Char × List Char)) : List Char :=
  match context with
  | [] => subject
  | _ :: _ =>
      context.foldl
        (fun result kv => strReplace result (placeholder kv.1) kv.2) subject

/-- A concrete campaign row used by closed witnesses. -/
def baseCampaign : Campaign :=
  { id := 1, hubId := 1, name := "c", description := "", channel := "sms",
    template_id := none, status := "draft", scheduled_at := none,
    started_at := none, completed_at := none, total_recipients := 0,
    sent_count := 0, delivered_count := 0, failed_count := 0,
    target_filter := "", is_deleted := false, updated_at := 0 }

/-- A concrete template row used by closed witnesses. -/
def baseTemplate : MessageTemplate :=
  { id := 1, hubId := 1, name := "t", channel := "all", category := "custom",
    subject := "s", body := "b", is_active := true, is_system := false,
    is_deleted := false, updated_at := 0 }

/-- The body `Hi x-placeholder` used by the rendering claims. -/
def hiBody : List Char := ['H', 'i', ' ', lb, lb, 'x', rb, rb]

/-- The context key `x`. -/
def xKey : List Char := ['x']

/-- The placeholder of key `x`. -/
def xPlaceholder : List Char := placeholder xKey

/-- C1: for every Message in any prior status, `mark_sent` sets status
`sent` and stamps `sent_at` with the current time; `mark_delivered` sets
`delivered` and stamps `delivered_at`; `mark_read` sets `read` and stamps
`read_at`; `mark_failed e` sets `failed` and stores `error_message = e`.
Each is a total function of the message, so each succeeds unconditionally
without validating the prior state (`m` ranges over all statuses,
including a `queued` message handed to `mark_read`). -/
theorem mark_ops_unconditional (m : Message) (now : Nat) (e : String) :
    (m.mark_sent now).status = "sent" ∧ (m.mark_sent now).sent_at = some now ∧
    (m.mark_delivered now).status = "delivered" ∧
    (m.mark_delivered now).delivered_at = some now ∧
    (m.mark_read now).status = "read" ∧ (m.mark_read now).read_at = some now ∧
    (m.mark_failed e now).status = "failed" ∧
    (m.mark_failed e now).error_message = e := by
  simp [Message.mark_sent, Message.mark_delivered, Message.mark_read,
    Message.mark_failed]

/-- C2: given a JSON body, the webhook returns 400 when `external_id` or
`status` is missing (the code also treats an empty string as missing),
404 when no Message has that external_id, maps a found message through
the corresponding mark-* operation for status `delivered`/`read`/
`failed`/`sent`, and for any other status value performs no state change
yet still returns a success response. -/
theorem api_webhook_spec (now : Nat) (db : List Message) (data : WebhookBody)
    (m : Message) :
    ((data.external_id.getD "" = "" ∨ data.status.getD "" = "") →
        api_webhook now db data =
          (WebhookResult.badRequest "external_id and status required", db)) ∧
    (data.external_id.getD "" ≠ "" → data.status.getD "" ≠ "" →
      (db.filter (fun x => x.external_id == data.external_id.getD "") = [] →
          api_webhook now db data =
            (WebhookResult.notFound "Message not found", db)) ∧
      (db.filter (fun x => x.external_id == data.external_id.getD "") = [m] →
        (data.status.getD "" = "delivered" →
            api_webhook now db data =
              (WebhookResult.ok m.id,
                updateById Message.id db (m.mark_delivered now))) ∧
        (data.status.getD "" = "read" →
            api_webhook now db data =
              (WebhookResult.ok m.id,
                updateById Message.id db (m.mark_read now))) ∧
        (data.status.getD "" = "failed" →
            api_webhook now db data =
              (WebhookResult.ok m.id,
                updateById Message.id db
                  (m.mark_failed (data.error.getD "") now))) ∧
        (data.status.getD "" = "sent" →
            api_webhook now db data =
              (WebhookResult.ok m.id,
                updateById Message.id db (m.mark_sent now))) ∧
        (data.status.getD "" ∉ (["delivered", "read", "failed", "sent"] : List String) →
            api_webhook now db data = (WebhookResult.ok m.id, db)))) := by
  constructor
  · intro h
    unfold api_webhook
    rw [if_pos h]
  · intro he hs
    have hcond : ¬(data.external_id.getD "" = "" ∨ data.status.getD "" = "") :=
      not_or.mpr ⟨he, hs⟩
    constructor
    · intro hnil
      simp [api_webhook, ormGet, hnil, hcond, he, hs]
    · intro hone
      refine ⟨fun hd => ?_, fun hr => ?_, fun hf => ?_, fun hsent => ?_,
        fun hother => ?_⟩
      · simp [api_webhook, ormGet, hone, hcond, he, hd, Message.mark_delivered]
      · simp [api_webhook, ormGet, hone, hcond, he, hr, Message.mark_read]
      · simp [api_webhook, ormGet, hone, hcond, he, hf, Message.mark_failed]
      · simp [api_webhook, ormGet, hone, hcond, he, hsent, Message.mark_sent]
      · simp only [List.mem_cons, List.not_mem_nil, or_false, not_or] at hother
        obtain ⟨h1, h2, h3, h4⟩ := hother
        simp [api_webhook, ormGet, hone, hcond, he, hs, h1, h2, h3, h4]

/-- Witness for C2 at a concrete store and body. -/
theorem api_webhook_spec_witness :
    api_webhook 7 [baseMsg] ⟨some "X", some "delivered", none⟩ =
      (WebhookResult.ok 1, [baseMsg.mark_delivered 7]) := by
  have h := (((api_webhook_spec 7 [baseMsg] ⟨some "X", some "delivered", none⟩
      baseMsg).2 (by decide) (by decide)).2 (by decide)).1 (by decide)
  rw [h]
  decide

/-- C3 counterexample: the message starts in status `read`, and one
webhook callback with status `sent` (a defined operation of this core)
moves it back to `sent` — refuting the claim that no sequence of the
defined operations takes a message from `read` back to `sent`. -/
theorem backward_transition_cex :
    ({ baseMsg with status := "read" } : Message).status = "read" ∧
    (api_webhook 9 [{ baseMsg with status := "read" }]
        ⟨some "X", some "sent", none⟩).2.map Message.status = ["sent"] ∧
    (api_webhook 9 [{ baseMsg with status := "read" }]
        ⟨some "X", some "sent", none⟩).1 = WebhookResult.ok 1 := by
  decide

/-- C3 (amended): no mark-* operation validates the prior status — each
sets its fixed target unconditionally — so the defined operations can move
a message backward along the lifecycle queued → sent → delivered → read:
a webhook callback with status `sent` moves a uniquely-matched message
whose status is `read` back to `sent`. -/
theorem backward_transition_reachable (now : Nat) (db : List Message)
    (m : Message) (e : String) (hread : m.status = "read") (he : e ≠ "")
    (hone : db.filter (fun x => x.external_id == e) = [m]) :
    api_webhook now db ⟨some e, some "sent", none⟩ =
      (WebhookResult.ok m.id, updateById Message.id db (m.mark_sent now)) ∧
    (m.mark_sent now).status = "sent" := by
  refine ⟨?_, by simp [Message.mark_sent]⟩
  have hcond : ¬((some e).getD "" = "" ∨ (some "sent" : Option String).getD "" = "") := by
    simp [he]
  simp [api_webhook, ormGet, hone, hcond, he, Message.mark_sent]

/-- Witness for the amended C3 at a concrete store. -/
theorem backward_transition_reachable_witness :
    api_webhook 9 [{ baseMsg with status := "read" }] ⟨some "X", some "sent", none⟩ =
      (WebhookResult.ok 1,
        [({ baseMsg with status := "read" } : Message).mark_sent 9]) := by
  have h := backward_transition_reachable 9 [{ baseMsg with status := "read" }]
    { baseMsg with status := "read" } "X" (by decide) (by decide) (by decide)
  rw [h.1]
  decide

/-- C7 counterexample: two stored Messages share external_id `X`; the
webhook callback neither updates the first match nor any other — the
`get` raises MultipleObjectsReturned, which escapes as a server error and
the store is unchanged — refuting first-match-wins. -/
theorem webhook_duplicate_external_id_cex :
    api_webhook 7 [baseMsg, { baseMsg with id := 2 }]
        ⟨some "X", some "delivered", none⟩ =
      (WebhookResult.serverError, [baseMsg, { baseMsg with id := 2 }]) ∧
    baseMsg.external_id = "X" ∧
    ({ baseMsg with id := 2 } : Message).external_id = "X" := by
  decide

/-- C7 (amended): the webhook lookup is by exact match on external_id,
but when two or more Messages share that external_id the lookup fails
(Django `get` raises MultipleObjectsReturned, surfacing as a server
error) and no message is updated — the endpoint does not pick the first
match. -/
theorem webhook_duplicate_raises (now : Nat) (db : List Message)
    (data : WebhookBody) (m1 m2 : Message) (rest : List Message)
    (he : data.external_id.getD "" ≠ "") (hs : data.status.getD "" ≠ "")
    (hdup : db.filter (fun x => x.external_id == data.external_id.getD "") =
      m1 :: m2 :: rest) :
    api_webhook now db data = (WebhookResult.serverError, db) := by
  have hcond : ¬(data.external_id.getD "" = "" ∨ data.status.getD "" = "") :=
    not_or.mpr ⟨he, hs⟩
  simp [api_webhook, ormGet, hdup, hcond, he, hs]

/-- Witness for the amended C7 at a concrete store. -/
theorem webhook_duplicate_raises_witness :
    api_webhook 8 [baseMsg, { baseMsg with id := 2 }] ⟨some "X", some "read", none⟩ =
      (WebhookResult.serverError, [baseMsg, { baseMsg with id := 2 }]) :=
  webhook_duplicate_raises 8 [baseMsg, { baseMsg with id := 2 }]
    ⟨some "X", some "read", none⟩ baseMsg { baseMsg with id := 2 } []
    (by decide) (by decide) (by decide)

/-- C4: the send endpoint returns 400 when channel, recipient_contact or
body is missing (the code also treats an empty string as missing), 400
when the channel is not whatsapp/sms/email, and for every valid input
creates a new Message — created `queued`, then immediately marked sent —
and responds with that message's id and a status of `sent`. -/
theorem api_send_spec (now hub nextId : Nat) (db : List Message)
    (data : SendBody) :
    ((data.channel.getD "" = "" ∨ data.recipient_contact.getD "" = "" ∨
        data.body.getD "" = "") →
      api_send now hub nextId db data =
        (SendResult.badRequest
          "channel, recipient_contact, and body are required", db)) ∧
    (data.channel.getD "" ≠ "" → data.recipient_contact.getD "" ≠ "" →
      data.body.getD "" ≠ "" →
      (¬(data.channel.getD "" = "whatsapp" ∨ data.channel.getD "" = "sms" ∨
          data.channel.getD "" = "email") →
        api_send now hub nextId db data =
          (SendResult.badRequest
            "Invalid channel. Must be whatsapp, sms, or email", db)) ∧
      ((data.channel.getD "" = "whatsapp" ∨ data.channel.getD "" = "sms" ∨
          data.channel.getD "" = "email") →
        api_send now hub nextId db data =
          (SendResult.ok nextId "sent",
            updateById Message.id (db ++ [newMessage now hub nextId data])
              ((newMessage now hub nextId data).mark_sent now)) ∧
        (newMessage now hub nextId data).status = "queued" ∧
        ((newMessage now hub nextId data).mark_sent now).status = "sent" ∧
        (newMessage now hub nextId data).mark_sent now ∈
          (api_send now hub nextId db data).2)) := by
  constructor
  · intro h
    unfold api_send
    rw [if_pos h]
  · intro h1 h2 h3
    have hcond : ¬(data.channel.getD "" = "" ∨ data.recipient_contact.getD "" = "" ∨
        data.body.getD "" = "") := by simp [h1, h2, h3]
    constructor
    · intro hbad
      unfold api_send
      rw [if_neg hcond, if_pos hbad]
    · intro hgood
      have heq : api_send now hub nextId db data =
          (SendResult.ok nextId "sent",
            updateById Message.id (db ++ [newMessage now hub nextId data])
              ((newMessage now hub nextId data).mark_sent now)) := by
        unfold api_send
        rw [if_neg hcond, if_neg (not_not_intro hgood)]
        simp [Message.mark_sent, newMessage]
      refine ⟨heq, rfl, rfl, ?_⟩
      rw [heq]
      simp only [updateById]
      exact List.mem_map.mpr ⟨newMessage now hub nextId data, by simp,
        by simp [Message.mark_sent]⟩

/-- Witness for C4 at a concrete valid request. -/
theorem api_send_spec_witness :
    api_send 3 1 10 []
        ⟨some "email", some "a@b.com", some "s", some "hi", none, none, none,
          none⟩ =
      (SendResult.ok 10 "sent",
        [(newMessage 3 1 10
            ⟨some "email", some "a@b.com", some "s", some "hi", none, none,
              none, none⟩).mark_sent 3]) := by
  have h := ((api_send_spec 3 1 10 []
      ⟨some "email", some "a@b.com", some "s", some "hi", none, none, none,
        none⟩).2 (by decide) (by decide) (by decide)).2 (by decide)
  rw [h.1]
  decide

/-- C5 counterexample: two-run noninterference fails at the webhook.
With only tenant 1's message stored, a delivered callback updates it;
adding tenant 2's message carrying the same external_id changes tenant
1's outcome — the call now raises and tenant 1's message stays `sent`. -/
theorem webhook_cross_tenant_cex :
    (api_webhook 7 [baseMsg] ⟨some "X", some "delivered", none⟩).2.map
        Message.status = ["delivered"] ∧
    (api_webhook 7 [baseMsg, { baseMsg with id := 2, hubId := 2 }]
        ⟨some "X", some "delivered", none⟩).1 = WebhookResult.serverError ∧
    (api_webhook 7 [baseMsg, { baseMsg with id := 2, hubId := 2 }]
        ⟨some "X", some "delivered", none⟩).2.map Message.status =
      ["sent", "sent"] ∧
    ({ baseMsg with id := 2, hubId := 2 } : Message).hubId ≠ baseMsg.hubId := by
  decide

/-- C5 (amended): the tenant-scoped handlers filter every query by hub id
— the message-list queryset over a store extended with another tenant's
rows equals the queryset over the original store — but the
unauthenticated webhook's lookup by external_id is global across
tenants: it matches and updates a message of any hub whatsoever, so its
outcome can depend on other tenants' rows. -/
theorem tenant_scoping_amended (hub : Nat) (dbA dbB : List Message)
    (ch st q : String) (hB : ∀ m ∈ dbB, m.hubId ≠ hub) :
    messages_list_qs (dbA ++ dbB) hub ch st q =
      messages_list_qs dbA hub ch st q ∧
    (∀ (now anyHub : Nat) (db : List Message) (m : Message) (e : String),
        m.hubId = anyHub → e ≠ "" →
        db.filter (fun x => x.external_id == e) = [m] →
        api_webhook now db ⟨some e, some "delivered", none⟩ =
          (WebhookResult.ok m.id,
            updateById Message.id db (m.mark_delivered now))) := by
  constructor
  · have hbase : messagesBaseFilter (dbA ++ dbB) hub =
        messagesBaseFilter dbA hub := by
      have hnil : dbB.filter (fun m => m.hubId == hub && !m.is_deleted) = [] := by
        rw [List.filter_eq_nil_iff]
        intro m hm
        simp [hB m hm]
      simp only [messagesBaseFilter, List.filter_append, hnil, List.append_nil]
    rw [messages_list_qs, messages_list_qs, hbase]
  · intro now anyHub db m e hm he hone
    have hcond : ¬((some e).getD "" = "" ∨
        (some "delivered" : Option String).getD "" = "") := by simp [he]
    simp [api_webhook, ormGet, hone, hcond, he, Message.mark_delivered]

/-- Witness for the amended C5 at a concrete two-tenant store. -/
theorem tenant_scoping_amended_witness :
    messages_list_qs ([baseMsg] ++ [{ baseMsg with id := 2, hubId := 2 }])
        1 "" "" "" =
      messages_list_qs [baseMsg] 1 "" "" "" :=
  (tenant_scoping_amended 1 [baseMsg] [{ baseMsg with id := 2, hubId := 2 }]
    "" "" "" (by decide)).1

/-- A string contains any suffix appended to it (helper for rendering). -/
theorem containsSub_append_right (a s : List Char) :
    containsSub (a ++ s) s = true := by
  induction a with
  | nil =>
    cases s with
    | nil => rfl
    | cons c rest => simp [containsSub, List.isPrefixOf_iff_prefix]
  | cons c a ih => simp [containsSub, ih]

/-- C6 counterexample: for the scalar whose string form is the
x-placeholder itself, rendering `Hi x-placeholder` with x bound to it
still contains the placeholder (the replacement text reintroduces it) —
refuting "no longer contains it for every scalar v". -/
theorem render_reintroduced_placeholder_cex :
    containsSub (render_body hiBody [(xKey, xPlaceholder)]) xPlaceholder =
      true ∧
    render_body hiBody [(xKey, xPlaceholder)] = hiBody := by
  decide

/-- C6 (amended): rendering with an empty (or absent) context returns the
text unchanged, for body and subject alike; rendering `Hi x-placeholder`
with x bound to the string form of a scalar v yields `Hi ` followed by v,
which contains v — and no longer contains the x-placeholder provided v
does not itself contain it; a key absent from the context leaves its
placeholder in place. -/
theorem render_spec_amended (v text : List Char) :
    render_body text [] = text ∧
    render_subject text [] = text ∧
    render_body hiBody [(xKey, v)] = ['H', 'i', ' '] ++ v ∧
    containsSub (render_body hiBody [(xKey, v)]) v = true ∧
    (containsSub v xPlaceholder = false →
        containsSub (render_body hiBody [(xKey, v)]) xPlaceholder = false) ∧
    render_body ['H', 'i', ' ', lb, lb, 'y', rb, rb] [(xKey, ['1'])] =
      ['H', 'i', ' ', lb, lb, 'y', rb, rb] := by
  have h2 : render_body hiBody [(xKey, v)] = ['H', 'i', ' '] ++ v := by
    show 'H' :: 'i' :: ' ' :: (v ++ []) = ['H', 'i', ' '] ++ v
    simp
  refine ⟨rfl, rfl, h2, ?_, ?_, by decide⟩
  · rw [h2]
    exact containsSub_append_right ['H', 'i', ' '] v
  · intro hv
    rw [h2]
    have e1 : xPlaceholder.isPrefixOf ('H' :: 'i' :: ' ' :: v) = false := rfl
    have e2 : xPlaceholder.isPrefixOf ('i' :: ' ' :: v) = false := rfl
    have e3 : xPlaceholder.isPrefixOf (' ' :: v) = false := rfl
    simp [containsSub, e1, e2, e3, hv]

/-- Witness for the amended C6 at a concrete scalar. -/
theorem render_spec_amended_witness :
    containsSub (render_body hiBody [(xKey, ['B', 'o', 'b'])]) xPlaceholder =
      false :=
  (render_spec_amended ['B', 'o', 'b'] []).2.2.2.2.1 (by decide)

/-- Rounding half to even lands within half a unit of the exact ratio
(helper for the campaign percentage claims). -/
theorem roundHalfEvenDiv_close (n d : Nat) (hd : d ≠ 0) :
    2 * ((roundHalfEvenDiv n d : ℤ) * d - n) ≤ d ∧
    2 * ((n : ℤ) - (roundHalfEvenDiv n d : ℤ) * d) ≤ d := by
  have hqr : d * (n / d) + n % d = n := Nat.div_add_mod n d
  have hqr2 : (d : ℤ) * ((n / d : Nat) : ℤ) + ((n % d : Nat) : ℤ) = (n : ℤ) := by
    exact_mod_cast hqr
  have hlt : ((n % d : Nat) : ℤ) < (d : ℤ) := by
    exact_mod_cast Nat.mod_lt n (Nat.pos_of_ne_zero hd)
  have hnn : (0 : ℤ) ≤ ((n % d : Nat) : ℤ) := Int.natCast_nonneg _
  unfold roundHalfEvenDiv
  split_ifs with c1 c2 c3
  · have hc : 2 * ((n % d : Nat) : ℤ) < (d : ℤ) := by exact_mod_cast c1
    exact ⟨by linarith, by linarith⟩
  · have hc : (d : ℤ) < 2 * ((n % d : Nat) : ℤ) := by exact_mod_cast c2
    exact ⟨by simp only [Nat.cast_add_one]; linarith,
      by simp only [Nat.cast_add_one]; linarith⟩
  · have hc : (d : ℤ) ≤ 2 * ((n % d : Nat) : ℤ) := by
      exact_mod_cast Nat.le_of_not_lt c1
    have hc2 : 2 * ((n % d : Nat) : ℤ) ≤ (d : ℤ) := by
      exact_mod_cast Nat.le_of_not_lt c2
    exact ⟨by linarith, by linarith⟩
  · have hc : (d : ℤ) ≤ 2 * ((n % d : Nat) : ℤ) := by
      exact_mod_cast Nat.le_of_not_lt c1
    have hc2 : 2 * ((n % d : Nat) : ℤ) ≤ (d : ℤ) := by
      exact_mod_cast Nat.le_of_not_lt c2
    exact ⟨by simp only [Nat.cast_add_one]; linarith,
      by simp only [Nat.cast_add_one]; linarith⟩

/-- C8: `delivery_rate` is 0 when `sent_count` is 0 and otherwise
`(delivered_count / sent_count) * 100` rounded to one decimal (in tenths:
within half a tenth of the exact ratio, and exactly the half-even
rounding); `progress_percent` is 0 when `total_recipients` is 0 and
otherwise `(sent_count / total_recipients) * 100` rounded to one decimal.
`sent=25, delivered=20` gives 80.0 and `sent=25, total=50` gives 50.0. -/
theorem campaign_rates_spec (c : Campaign) :
    (c.sent_count = 0 → c.delivery_rate_tenths = 0) ∧
    (c.sent_count ≠ 0 →
      c.delivery_rate_tenths =
        roundHalfEvenDiv (c.delivered_count * 1000) c.sent_count ∧
      2 * ((c.delivery_rate_tenths : ℤ) * c.sent_count -
          c.delivered_count * 1000) ≤ c.sent_count ∧
      2 * ((c.delivered_count * 1000 : ℤ) -
          (c.delivery_rate_tenths : ℤ) * c.sent_count) ≤ c.sent_count) ∧
    (c.total_recipients = 0 → c.progress_percent_tenths = 0) ∧
    (c.total_recipients ≠ 0 →
      c.progress_percent_tenths =
        roundHalfEvenDiv (c.sent_count * 1000) c.total_recipients ∧
      2 * ((c.progress_percent_tenths : ℤ) * c.total_recipients -
          c.sent_count * 1000) ≤ c.total_recipients ∧
      2 * ((c.sent_count * 1000 : ℤ) -
          (c.progress_percent_tenths : ℤ) * c.total_recipients) ≤
        c.total_recipients) ∧
    ({ baseCampaign with sent_count := 25, delivered_count := 20 } :
        Campaign).delivery_rate_tenths = 800 ∧
    ({ baseCampaign with sent_count := 25, total_recipients := 50 } :
        Campaign).progress_percent_tenths = 500 := by
  refine ⟨fun h => by simp [Campaign.delivery_rate_tenths, h], fun h => ?_,
    fun h => by simp [Campaign.progress_percent_tenths, h], fun h => ?_,
    by decide, by decide⟩
  · have hdef : c.delivery_rate_tenths =
        roundHalfEvenDiv (c.delivered_count * 1000) c.sent_count := by
      simp [Campaign.delivery_rate_tenths, h]
    have hclose := roundHalfEvenDiv_close (c.delivered_count * 1000)
      c.sent_count h
    refine ⟨hdef, ?_, ?_⟩
    · have := hclose.1
      rw [hdef]
      push_cast at this ⊢
      linarith
    · have := hclose.2
      rw [hdef]
      push_cast at this ⊢
      linarith
  · have hdef : c.progress_percent_tenths =
        roundHalfEvenDiv (c.sent_count * 1000) c.total_recipients := by
      simp [Campaign.progress_percent_tenths, h]
    have hclose := roundHalfEvenDiv_close (c.sent_count * 1000)
      c.total_recipients h
    refine ⟨hdef, ?_, ?_⟩
    · have := hclose.1
      rw [hdef]
      push_cast at this ⊢
      linarith
    · have := hclose.2
      rw [hdef]
      push_cast at this ⊢
      linarith

/-- Witness for C8 at a concrete campaign. -/
theorem campaign_rates_spec_witness :
    ({ baseCampaign with sent_count := 25, delivered_count := 20 } :
        Campaign).delivery_rate_tenths =
      roundHalfEvenDiv (20 * 1000) 25 :=
  ((campaign_rates_spec
    { baseCampaign with sent_count := 25, delivered_count := 20 }).2.1
    (by decide)).1

/-- C9: invoking campaign start through the handler outside
`draft`/`scheduled`, or cancel from `completed`/`cancelled`, leaves the
campaign rows unchanged and still renders a 200 page with an error
notice; in the allowed states start sets status `sending` and stamps
`started_at`, and cancel sets status `cancelled`. -/
theorem campaign_guard_spec (now hub pk : Nat) (db : List Campaign)
    (c : Campaign)
    (hfind : db.filter
      (fun x => x.id == pk && x.hubId == hub && !x.is_deleted) = [c]) :
    (¬(c.status = "draft" ∨ c.status = "scheduled") →
        campaign_start now hub pk db = (PageResult.page true, db)) ∧
    ((c.status = "draft" ∨ c.status = "scheduled") →
        campaign_start now hub pk db =
          (PageResult.page false, updateById Campaign.id db (c.start now)) ∧
        (c.start now).status = "sending" ∧
        (c.start now).started_at = some now) ∧
    ((c.status = "completed" ∨ c.status = "cancelled") →
        campaign_cancel now hub pk db = (PageResult.page true, db)) ∧
    (¬(c.status = "completed" ∨ c.status = "cancelled") →
        campaign_cancel now hub pk db =
          (PageResult.page false, updateById Campaign.id db (c.cancel now)) ∧
        (c.cancel now).status = "cancelled") := by
  refine ⟨fun h => ?_, fun h => ?_, fun h => ?_, fun h => ?_⟩
  · simp [campaign_start, ormGet, hfind, h]
  · exact ⟨by simp [campaign_start, ormGet, hfind, h],
      by simp [Campaign.start], by simp [Campaign.start]⟩
  · simp [campaign_cancel, ormGet, hfind, h]
  · exact ⟨by simp [campaign_cancel, ormGet, hfind, h],
      by simp [Campaign.cancel]⟩

/-- Witness for C9 at a concrete store: a draft campaign starts, and a
completed one refuses both transitions. -/
theorem campaign_guard_spec_witness :
    campaign_start 5 1 1 [baseCampaign] =
      (PageResult.page false, [baseCampaign.start 5]) ∧
    campaign_start 5 1 1 [{ baseCampaign with status := "completed" }] =
      (PageResult.page true, [{ baseCampaign with status := "completed" }]) := by
  constructor
  · have h := (campaign_guard_spec 5 1 1 [baseCampaign] baseCampaign
      (by decide)).2.1 (by decide)
    rw [h.1]
    decide
  · exact (campaign_guard_spec 5 1 1 [{ baseCampaign with status := "completed" }]
      { baseCampaign with status := "completed" } (by decide)).1 (by decide)

/-- C10: deleting a system template is refused — the handler flashes an
error, the store is unchanged, and the template stays in the default
non-deleted view; deleting a non-system template soft-deletes it, after
which no row with its id is in the default view while the row, now
flagged deleted, is still in the all-records view. -/
theorem template_delete_spec (hub pk : Nat) (db : List MessageTemplate)
    (t : MessageTemplate)
    (hfind : db.filter
      (fun x => x.id == pk && x.hubId == hub && !x.is_deleted) = [t]) :
    (t.is_system = true →
        template_delete hub pk db = (PageResult.page true, db) ∧
        t ∈ templatesDefaultView db hub) ∧
    (t.is_system = false →
        template_delete hub pk db =
          (PageResult.page false,
            updateById MessageTemplate.id db t.delete) ∧
        (∀ u ∈ templatesDefaultView
            (updateById MessageTemplate.id db t.delete) hub, u.id ≠ t.id) ∧
        (∃ u ∈ templatesAllRecordsView
            (updateById MessageTemplate.id db t.delete) hub,
          u.id = t.id ∧ u.is_deleted = true)) := by
  have htf : t ∈ db.filter
      (fun x => x.id == pk && x.hubId == hub && !x.is_deleted) := by
    rw [hfind]
    exact List.mem_singleton.mpr rfl
  obtain ⟨htdb, hpred⟩ := List.mem_filter.mp htf
  simp only [Bool.and_eq_true, beq_iff_eq, Bool.not_eq_eq_eq_not,
    Bool.not_true] at hpred
  obtain ⟨⟨hid, hhub⟩, hdel⟩ := hpred
  constructor
  · intro hsys
    constructor
    · simp [template_delete, ormGet, hfind, hsys]
    · exact List.mem_filter.mpr ⟨htdb, by simp [hhub, hdel]⟩
  · intro hsys
    refine ⟨by simp [template_delete, ormGet, hfind, hsys], ?_, ?_⟩
    · intro u hu
      obtain ⟨humap, hup⟩ := List.mem_filter.mp hu
      obtain ⟨x, hx, hfx⟩ := List.mem_map.mp humap
      by_cases hxid : x.id = t.id
      · have : u = t.delete := by
          rw [← hfx]
          simp [updateById, MessageTemplate.delete, hxid]
        rw [this] at hup
        simp [MessageTemplate.delete] at hup
      · have : u = x := by
          rw [← hfx]
          simp [MessageTemplate.delete, hxid]
        rw [this]
        exact hxid
    · refine ⟨t.delete, List.mem_filter.mpr ⟨?_, ?_⟩, rfl, rfl⟩
      · exact List.mem_map.mpr ⟨t, htdb, by simp [MessageTemplate.delete]⟩
      · simp [MessageTemplate.delete, hhub]

/-- Witness for C10 at a concrete store: a system template survives its
delete request; a plain template is soft-deleted. -/
theorem template_delete_spec_witness :
    template_delete 1 1 [{ baseTemplate with is_system := true }] =
      (PageResult.page true, [{ baseTemplate with is_system := true }]) ∧
    template_delete 1 1 [baseTemplate] =
      (PageResult.page false, [baseTemplate.delete]) := by
  constructor
  · exact ((template_delete_spec 1 1 [{ baseTemplate with is_system := true }]
      { baseTemplate with is_system := true } (by decide)).1 rfl).1
  · have h := (template_delete_spec 1 1 [baseTemplate] baseTemplate
      (by decide)).2 rfl
    rw [h.1]
    decide

end Messaging
